import Mathlib

/-!
Shallow embedding of the CodeFix repository (src/models.py, src/ai_engine.py,
src/main.py) and proofs about its matching engine.

Python floats are idealised as real numbers; `None`-able values are `Option`;
a Python `dict` loaded from JSON (a knowledge-base example) is a record of
optional fields, where a missing key makes the corresponding field `none` and
subscript access (`example['title']`) on a missing key is a raised `KeyError`,
modelled as the `none` outcome of an `Option` computation.  Exceptions are the
`none` case of an `Option`-valued translation of each `try` body; the `except`
clause is the surrounding `match`.  Methods that touch engine state are
state-passing functions `BugSolutionAI → ... → BugSolutionAI × result`.
-/

namespace CodeFix

/-- models.py, `BugReport`: a validated bug report.  `datetime` timestamps are
idealised as `Nat`.  Fields `title` and `description` are required (pydantic
`Field(...)`); all the others are optional or defaulted. -/
structure BugReport where
  id : Option Int
  title : String
  description : String
  steps_to_reproduce : Option String
  expected_behavior : Option String
  actual_behavior : Option String
  code_snippet : Option String
  language : Option String
  created_at : Option Nat
  resolved : Bool
deriving Repr, DecidableEq

/-- Raw keyword arguments offered to the `BugReport` pydantic constructor:
each field is `some v` when the caller supplies the key and `none` when the
key is absent from the payload. -/
structure BugReportInput where
  id : Option Int := none
  title : Option String := none
  description : Option String := none
  steps_to_reproduce : Option String := none
  expected_behavior : Option String := none
  actual_behavior : Option String := none
  code_snippet : Option String := none
  language : Option String := none
  created_at : Option Nat := none
  resolved : Option Bool := none
deriving Repr, DecidableEq

/-- Pydantic validation of a `BugReport` (models.py lines 30-85): `title` and
`description` are required and validation fails (`ValidationError`, modelled
as `none`) when either is absent; `id`, `steps_to_reproduce`,
`expected_behavior`, `actual_behavior`, `code_snippet` and `language` default
to `None`; `created_at` defaults to the current time (`default_factory =
datetime.utcnow`, the `now` argument here); `resolved` defaults to `False`. -/
def BugReport.validate (now : Nat) (inp : BugReportInput) : Option BugReport :=
  match inp.title, inp.description with
  | some t, some d =>
      some { id := inp.id
             title := t
             description := d
             steps_to_reproduce := inp.steps_to_reproduce
             expected_behavior := inp.expected_behavior
             actual_behavior := inp.actual_behavior
             code_snippet := inp.code_snippet
             language := inp.language
             created_at := some (inp.created_at.getD now)
             resolved := inp.resolved.getD false }
  | _, _ => none

/-- A knowledge-base example as loaded by `_load_examples` from
`data/examples.json` (ai_engine.py lines 38-46): a JSON dict whose keys may
each be present or absent.  Only the keys the engine ever reads are
modelled. -/
structure ExampleDict where
  title : Option String := none
  description : Option String := none
  solution : Option String := none
  code_example : Option String := none
  source : Option String := none
  tags : Option (List String) := none
  keywords : Option (List String) := none
deriving Repr, DecidableEq

/-- Modelled from the spec: `BugSolution` is imported from `models` by both
main.py and ai_engine.py, but models.py in the source tree defines only
`BugReport`; the `BugSolution` class itself is missing from the sources.  Its
shape follows the spec's knowledge-base entry record ("title, description used
for embedding, solution text, example code, source citation, tags") together
with the fields its only constructor call site, `_format_solution`
(ai_engine.py lines 187-195), populates: `title`, `solution`, `code_example`,
`source`, `confidence`, `tags`, `similarity_score`. -/
structure BugSolution where
  title : String
  solution : String
  code_example : String
  source : String
  confidence : ℝ
  tags : List String
  similarity_score : ℝ

/-! ## Numerics: cosine similarity and `np.argmax` -/

/-- Dot product of two embedding vectors. -/
def dot (u v : List ℝ) : ℝ := (List.zipWith (fun a b => a * b) u v).sum

/-- Euclidean norm of an embedding vector. -/
noncomputable def l2norm (u : List ℝ) : ℝ :=
  Real.sqrt ((u.map (fun x => x * x)).sum)

/-- `sklearn.metrics.pairwise.cosine_similarity` on a pair of row vectors:
the dot product divided by the product of the norms (a zero norm yields 0,
matching sklearn's zero-row convention, via division by zero being 0). -/
noncomputable def cosine_similarity (u v : List ℝ) : ℝ :=
  dot u v / (l2norm u * l2norm v)

/-- Index and value of the first occurrence of the maximum of a list, the
semantics of `np.argmax` on a one-dimensional array (ai_engine.py line 135):
ties are resolved to the lowest index. -/
noncomputable def argmaxList : List ℝ → Option (Nat × ℝ)
  | [] => none
  | x :: xs =>
    match argmaxList xs with
    | none => some (0, x)
    | some (j, v) => if v > x then some (j + 1, v) else some (0, x)

/-- `np.argmax` (ai_engine.py line 135): the first index attaining the
maximum; on an empty array numpy raises `ValueError`, modelled as `none`. -/
noncomputable def npArgmax (l : List ℝ) : Option Nat :=
  (argmaxList l).map Prod.fst

/-! ## `BugSolutionAI._calculate_confidence` (ai_engine.py lines 155-173) -/

/-- ai_engine.py lines 155-173, `_calculate_confidence`: start from the raw
similarity score, squash it through the logistic curve
`1 / (1 + np.exp (-10 * (s - 0.5)))`, and clamp the result to `[0, 1]` with
`min (max adjusted 0.0) 1.0`.  The `bug_report` parameter is accepted (as in
the source) but never read. -/
noncomputable def _calculate_confidence (similarity_score : ℝ)
    (bug_report : BugReport) : ℝ :=
  let base_confidence := similarity_score
  let adjusted_confidence := 1 / (1 + Real.exp (-10 * (base_confidence - 0.5)))
  min (max adjusted_confidence 0.0) 1.0

/-- The acceptance predicate the spec describes: "compare to 0.5" on the raw
cosine similarity itself.  Written from the spec's words, to be compared with
the implementation's sigmoid-then-threshold test. -/
def spec_accepts (s : ℝ) : Prop := s > 0.5

/-- The acceptance predicate the implementation uses (ai_engine.py line 142):
the sigmoid-squashed, clamped confidence exceeds the constant threshold
`0.5`. -/
noncomputable def impl_accepts (s : ℝ) (b : BugReport) : Prop :=
  _calculate_confidence s b > 0.5

/-! ## Engine state and its methods (ai_engine.py, class `BugSolutionAI`) -/

/-- The mutable state of a `BugSolutionAI` instance (ai_engine.py lines
26-36): the sentence-transformer model (opaque here: a per-text encoding
function that may fail, `none` standing for both an absent model and a raised
exception while encoding), the loaded examples, the cached example embeddings
and the `model_loaded` flag. -/
structure BugSolutionAI where
  model : Option (String → Option (List ℝ))
  examples : List ExampleDict
  example_embeddings : Option (List (List ℝ))
  model_loaded : Bool

/-- ai_engine.py lines 175-195, `_format_solution`: build a `BugSolution`
from a matched example dict.  The subscript reads `example['title']`,
`example['solution']`, `example['code_example']` and `example['source']`
raise `KeyError` when the key is missing (the `none` outcome); only `tags`
is read defensively with `example.get('tags', [])`. -/
def _format_solution (ex : ExampleDict) (confidence : ℝ)
    (similarity_score : ℝ) : Option BugSolution :=
  match ex.title, ex.solution, ex.code_example, ex.source with
  | some t, some s, some c, some src =>
      some { title := t
             solution := s
             code_example := c
             source := src
             confidence := confidence
             tags := ex.tags.getD []
             similarity_score := similarity_score }
  | _, _, _, _ => none

/-- The `try` body of `find_solution` (ai_engine.py lines 126-149), with a
raised exception as the outer `none`: encode the bug description
(`self.model.encode([bug_report.description])`), take the cosine similarity
of the query embedding against every cached example embedding, pick the
`np.argmax`, compute the confidence, and when it exceeds `0.5` format the
matched example (`self.examples[best_match_idx]`, an `IndexError` when out of
range) into a solution; otherwise return `None`. -/
noncomputable def find_solution_try (ai : BugSolutionAI)
    (bug_report : BugReport) : Option (Option BugSolution) := do
  let enc ← ai.model
  let bug_embedding ← enc bug_report.description
  let embs ← ai.example_embeddings
  let similarity_scores := embs.map (fun e => cosine_similarity bug_embedding e)
  let best_match_idx ← npArgmax similarity_scores
  let best_similarity := (similarity_scores[best_match_idx]?).getD 0
  let confidence := _calculate_confidence best_similarity bug_report
  if confidence > 0.5 then do
    let ex ← ai.examples[best_match_idx]?
    let sol ← _format_solution ex confidence best_similarity
    pure (some sol)
  else
    pure none

/-- ai_engine.py lines 113-153, `find_solution`: return `None` immediately
when the model is not loaded or the example embeddings are unavailable;
otherwise run the `try` body, turning any raised exception into `None`
(the `except` clause, lines 151-153).  The method assigns no attribute, so
the state component of the result is the input state. -/
noncomputable def find_solution (ai : BugSolutionAI) (bug_report : BugReport) :
    BugSolutionAI × Option BugSolution :=
  if !ai.model_loaded || ai.example_embeddings.isNone then (ai, none)
  else
    match find_solution_try ai bug_report with
    | some result => (ai, result)
    | none => (ai, none)

/-- The `try` body of `_prepare_embeddings` (ai_engine.py lines 96-107): read
every example's `'description'` key (a `KeyError` when missing) and encode
the texts with `self.model.encode` (an `AttributeError` when the model is
`None`, any encoder failure otherwise).  `none` is a raised exception. -/
def prepare_embeddings_try (ai : BugSolutionAI) : Option (List (List ℝ)) := do
  let texts ← ai.examples.mapM (fun ex => ex.description)
  let enc ← ai.model
  texts.mapM enc

/-- ai_engine.py lines 91-111, `_prepare_embeddings`: return unchanged when
the model is not loaded or there are no examples; otherwise regenerate the
example embeddings, setting `example_embeddings` to `None` when the `try`
body raises (the `except` clause, lines 109-111).  The `np.save` call is a
cache-file side effect outside the modelled state. -/
def _prepare_embeddings (ai : BugSolutionAI) : BugSolutionAI :=
  if !ai.model_loaded || ai.examples.isEmpty then ai
  else
    match prepare_embeddings_try ai with
    | some embeddings => { ai with example_embeddings := some embeddings }
    | none => { ai with example_embeddings := none }

/-- ai_engine.py lines 197-200, `update_embeddings`: regenerate embeddings
when the model is loaded. -/
def update_embeddings (ai : BugSolutionAI) : BugSolutionAI :=
  if ai.model_loaded then _prepare_embeddings ai else ai

/-- ai_engine.py lines 202-204, `get_examples`: return the loaded examples. -/
def get_examples (ai : BugSolutionAI) : BugSolutionAI × List ExampleDict :=
  (ai, ai.examples)

/-- The status dict returned by `get_model_status` (ai_engine.py lines
206-213). -/
structure ModelStatus where
  model_loaded : Bool
  examples_count : Nat
  embeddings_ready : Bool
  model_name : Option String

/-- ai_engine.py lines 206-213, `get_model_status`: report the flag, example
count, embedding readiness and model name. -/
def get_model_status (ai : BugSolutionAI) : BugSolutionAI × ModelStatus :=
  (ai, { model_loaded := ai.model_loaded
         examples_count := ai.examples.length
         embeddings_ready := ai.example_embeddings.isSome
         model_name := if ai.model.isSome then some "all-MiniLM-L6-v2" else none })

/-- The exact circumstances under which `find_solution` hands back a
solution, read off ai_engine.py lines 113-153: the model is loaded, the
embeddings cache is present, the description encodes successfully, `np.argmax`
picks index `j` among the cosine similarities, the squashed confidence of the
best similarity exceeds `0.5`, example `j` exists, and formatting it succeeds
(every required key present). -/
def SolutionSpec (ai : BugSolutionAI) (b : BugReport) (sol : BugSolution) : Prop :=
  ai.model_loaded = true ∧
  ∃ enc q embs j s ex,
    ai.model = some enc ∧
    enc b.description = some q ∧
    ai.example_embeddings = some embs ∧
    npArgmax (embs.map (fun e => cosine_similarity q e)) = some j ∧
    (embs.map (fun e => cosine_similarity q e))[j]? = some s ∧
    _calculate_confidence s b > 0.5 ∧
    ai.examples[j]? = some ex ∧
    _format_solution ex (_calculate_confidence s b) s = some sol

/-! ## Concrete fixtures used to instantiate the theorems below -/

/-- An encoder sending every text to the one-dimensional unit vector. -/
def encodeUnit : String → Option (List ℝ) := fun _ => some [1]

/-- An encoder sending every text to the two-dimensional unit vector
`[1, 0]`. -/
def encodeE2 : String → Option (List ℝ) := fun _ => some [1, 0]

/-- A well-formed knowledge-base example (every key present). -/
def exA : ExampleDict :=
  { title := some "Fix React State Mutation"
    description := some "React component not updating when state changes."
    solution := some "Create new objects to trigger re-renders."
    code_example := some "setTodos(newTodos)"
    source := some "React Documentation"
    tags := some ["react", "state"]
    keywords := some ["state"] }

/-- A second well-formed knowledge-base example. -/
def exB : ExampleDict :=
  { title := some "Fix useEffect Infinite Loop"
    description := some "useEffect hook running infinitely."
    solution := some "Add missing dependencies."
    code_example := some "useEffect(f, deps)"
    source := some "React Hooks Documentation"
    tags := some ["react", "useEffect"]
    keywords := some ["useEffect"] }

/-- A malformed knowledge-base example: it carries a solution but its
`'code_example'` key is absent, so `_format_solution` raises `KeyError` on
it. -/
def exBad : ExampleDict :=
  { title := some "Fix Event Handler Binding"
    description := some "Event handlers not working properly."
    solution := some "Use arrow functions."
    source := some "React Event Handling Documentation"
    tags := some ["react", "events"] }

/-- An engine state holding two examples whose embeddings are the two
standard basis vectors of the plane. -/
def w2AI : BugSolutionAI :=
  { model := some encodeE2
    examples := [exA, exB]
    example_embeddings := some [[0, 1], [1, 0]]
    model_loaded := true }

/-- An engine state whose single example is malformed (`exBad`). -/
def badAI : BugSolutionAI :=
  { model := some encodeUnit
    examples := [exBad]
    example_embeddings := some [[1]]
    model_loaded := true }

/-- A concrete bug report. -/
def w2Report : BugReport :=
  { id := none
    title := "Crash"
    description := "useEffect runs forever"
    steps_to_reproduce := none
    expected_behavior := none
    actual_behavior := none
    code_snippet := none
    language := none
    created_at := some 0
    resolved := false }

/-- A bug report with the same description as `w2Report` but a different
title, code snippet and language tag. -/
def w9Report : BugReport :=
  { w2Report with
    title := "Different title"
    code_snippet := some "useEffect(f)"
    language := some "JavaScript" }

/-- The solution `find_solution` produces on `w2AI` for `w2Report`. -/
noncomputable def w2Sol : BugSolution :=
  { title := "Fix useEffect Infinite Loop"
    solution := "Add missing dependencies."
    code_example := "useEffect(f, deps)"
    source := "React Hooks Documentation"
    confidence := _calculate_confidence 1 w2Report
    tags := ["react", "useEffect"]
    similarity_score := 1 }

/-! ## Helper lemmas: the logistic confidence curve -/

/-- The unclamped logistic value is strictly positive. -/
lemma logistic_pos (s : ℝ) : 0 < 1 / (1 + Real.exp (-10 * (s - 0.5))) := by
  positivity

/-- The unclamped logistic value is strictly below one. -/
lemma logistic_lt_one (s : ℝ) : 1 / (1 + Real.exp (-10 * (s - 0.5))) < 1 := by
  rw [div_lt_one (by positivity)]
  have := Real.exp_pos (-10 * (s - 0.5))
  linarith

/-- The clamp in `_calculate_confidence` is the identity: the logistic value
already lies strictly inside `(0, 1)`. -/
lemma calculate_confidence_eq (s : ℝ) (b : BugReport) :
    _calculate_confidence s b = 1 / (1 + Real.exp (-10 * (s - 0.5))) := by
  show min (max (1 / (1 + Real.exp (-10 * (s - 0.5)))) 0.0) 1.0 =
    1 / (1 + Real.exp (-10 * (s - 0.5)))
  rw [show (0.0 : ℝ) = 0 by norm_num, show (1.0 : ℝ) = 1 by norm_num]
  rw [max_eq_left (logistic_pos s).le, min_eq_left (logistic_lt_one s).le]

/-- Thresholding the squashed confidence at `0.5` is the same test as
thresholding the raw similarity at `0.5`. -/
lemma calculate_confidence_gt_half_iff (s : ℝ) (b : BugReport) :
    _calculate_confidence s b > 0.5 ↔ s > 0.5 := by
  rw [calculate_confidence_eq]
  have hE := Real.exp_pos (-10 * (s - 0.5))
  have hpos : (0 : ℝ) < 1 + Real.exp (-10 * (s - 0.5)) := by linarith
  rw [gt_iff_lt, lt_div_iff₀ hpos]
  constructor
  · intro h
    have h1 : Real.exp (-10 * (s - 0.5)) < 1 := by linarith
    have h2 : -10 * (s - 0.5) < 0 := Real.exp_lt_one_iff.mp h1
    linarith
  · intro h
    have h2 : -10 * (s - 0.5) < 0 := by linarith
    have h1 : Real.exp (-10 * (s - 0.5)) < 1 := Real.exp_lt_one_iff.mpr h2
    linarith

/-! ## Helper lemmas: `np.argmax` -/

/-- `argmaxList` returns `none` exactly on the empty array. -/
lemma argmaxList_eq_none_iff (l : List ℝ) : argmaxList l = none ↔ l = [] := by
  cases l with
  | nil => simp [argmaxList]
  | cons x xs =>
    simp only [argmaxList]
    cases argmaxList xs with
    | none => simp
    | some jv =>
      obtain ⟨j, v⟩ := jv
      dsimp only
      split <;> simp

/-- Correctness of `argmaxList`: it returns the value of a maximal entry
together with the first index attaining it. -/
lemma argmaxList_spec (l : List ℝ) :
    ∀ (j : Nat) (v : ℝ), argmaxList l = some (j, v) →
      l[j]? = some v ∧ (∀ (i : Nat) (w : ℝ), l[i]? = some w → w ≤ v) ∧
        ∀ i, i < j → ∀ (w : ℝ), l[i]? = some w → w < v := by
  induction l with
  | nil => intro j v h; simp [argmaxList] at h
  | cons x xs ih =>
    intro j v h
    unfold argmaxList at h
    cases hxs : argmaxList xs with
    | none =>
      rw [hxs] at h
      have hnil := (argmaxList_eq_none_iff xs).mp hxs
      subst hnil
      simp only [Option.some.injEq, Prod.mk.injEq] at h
      obtain ⟨hj, hv⟩ := h
      subst hj
      subst hv
      refine ⟨rfl, ?_, ?_⟩
      · intro i w hw
        cases i with
        | zero =>
          rw [List.getElem?_cons_zero] at hw
          simp only [Option.some.injEq] at hw
          exact le_of_eq hw.symm
        | succ i' => rw [List.getElem?_cons_succ] at hw; simp at hw
      · intro i hi
        exact absurd hi (Nat.not_lt_zero i)
    | some jv =>
      obtain ⟨j', v'⟩ := jv
      rw [hxs] at h
      dsimp only at h
      obtain ⟨hg, hmax, hfirst⟩ := ih j' v' hxs
      by_cases hvx : v' > x
      · rw [if_pos hvx] at h
        simp only [Option.some.injEq, Prod.mk.injEq] at h
        obtain ⟨hj, hv⟩ := h
        subst hj
        subst hv
        refine ⟨by rw [List.getElem?_cons_succ]; exact hg, ?_, ?_⟩
        · intro i w hw
          cases i with
          | zero =>
            rw [List.getElem?_cons_zero] at hw
            simp only [Option.some.injEq] at hw
            subst hw
            exact le_of_lt hvx
          | succ i' => rw [List.getElem?_cons_succ] at hw; exact hmax i' w hw
        · intro i hi w hw
          cases i with
          | zero =>
            rw [List.getElem?_cons_zero] at hw
            simp only [Option.some.injEq] at hw
            subst hw
            exact hvx
          | succ i' =>
            rw [List.getElem?_cons_succ] at hw
            exact hfirst i' (Nat.lt_of_succ_lt_succ hi) w hw
      · rw [if_neg hvx] at h
        have hle : v' ≤ x := not_lt.mp hvx
        simp only [Option.some.injEq, Prod.mk.injEq] at h
        obtain ⟨hj, hv⟩ := h
        subst hj
        subst hv
        refine ⟨by rw [List.getElem?_cons_zero], ?_, ?_⟩
        · intro i w hw
          cases i with
          | zero =>
            rw [List.getElem?_cons_zero] at hw
            simp only [Option.some.injEq] at hw
            exact le_of_eq hw.symm
          | succ i' =>
            rw [List.getElem?_cons_succ] at hw
            exact le_trans (hmax i' w hw) hle
        · intro i hi
          exact absurd hi (Nat.not_lt_zero i)

/-- Correctness of `npArgmax`: a returned index is in range, and its entry is
maximal, strictly above every earlier entry. -/
lemma npArgmax_spec (l : List ℝ) (j : Nat) (h : npArgmax l = some j) :
    ∃ v, l[j]? = some v ∧ (∀ (i : Nat) (w : ℝ), l[i]? = some w → w ≤ v) ∧
      ∀ i, i < j → ∀ (w : ℝ), l[i]? = some w → w < v := by
  unfold npArgmax at h
  cases hl : argmaxList l with
  | none => rw [hl] at h; simp at h
  | some jv =>
    obtain ⟨j', v⟩ := jv
    rw [hl] at h
    simp only [Option.map_some', Option.some.injEq] at h
    subst h
    exact ⟨v, argmaxList_spec l j' v hl⟩

/-! ## Helper lemmas: `find_solution` -/

/-- `find_solution` returns its input state on every path. -/
lemma find_solution_fst (ai : BugSolutionAI) (b : BugReport) :
    (find_solution ai b).1 = ai := by
  unfold find_solution
  split
  · rfl
  · cases find_solution_try ai b <;> rfl

/-- Forward characterization: a returned solution came from a fully
successful run. -/
lemma find_solution_some_fwd (ai : BugSolutionAI) (b : BugReport)
    (sol : BugSolution) (h : (find_solution ai b).2 = some sol) :
    SolutionSpec ai b sol := by
  unfold SolutionSpec
  unfold find_solution at h
  cases hml : ai.model_loaded with
  | false => rw [hml] at h; simp at h
  | true =>
  cases hee : ai.example_embeddings with
  | none => rw [hml, hee] at h; simp at h
  | some embs =>
  rw [hml, hee] at h
  rw [show (!true || (some embs).isNone) = false from rfl] at h
  rw [if_neg Bool.false_ne_true] at h
  cases htry : find_solution_try ai b with
  | none => rw [htry] at h; simp at h
  | some r =>
  rw [htry] at h
  dsimp only at h
  subst h
  unfold find_solution_try at htry
  cases hm : ai.model with
  | none => rw [hm] at htry; simp at htry
  | some enc =>
  rw [hm] at htry
  simp only [Option.bind_eq_bind, Option.some_bind] at htry
  cases hq : enc b.description with
  | none => rw [hq] at htry; simp at htry
  | some q =>
  rw [hq] at htry
  simp only [Option.some_bind] at htry
  rw [hee] at htry
  simp only [Option.some_bind] at htry
  cases hj : npArgmax (embs.map fun e => cosine_similarity q e) with
  | none => rw [hj] at htry; simp at htry
  | some j =>
  rw [hj] at htry
  simp only [Option.some_bind] at htry
  obtain ⟨v, hv, hmax, hfirst⟩ := npArgmax_spec _ j hj
  have hsv : ((embs.map fun e => cosine_similarity q e)[j]?).getD 0 = v := by
    rw [hv]; rfl
  rw [hsv] at htry
  by_cases hc : _calculate_confidence v b > 0.5
  · rw [if_pos hc] at htry
    cases hex : ai.examples[j]? with
    | none => rw [hex] at htry; simp at htry
    | some ex =>
    rw [hex] at htry
    simp only [Option.some_bind] at htry
    cases hfmt : _format_solution ex (_calculate_confidence v b) v with
    | none => rw [hfmt] at htry; simp at htry
    | some sol' =>
    rw [hfmt] at htry
    simp only [Option.some_bind] at htry
    have hss : sol' = sol := by simpa using htry
    subst hss
    exact ⟨rfl, enc, q, embs, j, v, ex, rfl, hq, rfl, hj, hv, hc, hex, hfmt⟩
  · rw [if_neg hc] at htry
    simp at htry

/-- Backward characterization: a fully successful run makes `find_solution`
return its solution. -/
lemma find_solution_some_bwd (ai : BugSolutionAI) (b : BugReport)
    (sol : BugSolution) (h : SolutionSpec ai b sol) :
    (find_solution ai b).2 = some sol := by
  obtain ⟨hml, enc, q, embs, j, s, ex, hm, hq, hee, hj, hs, hc, hex, hfmt⟩ := h
  have htry : find_solution_try ai b = some (some sol) := by
    unfold find_solution_try
    rw [hm]
    simp only [Option.bind_eq_bind, Option.some_bind]
    rw [hq]
    simp only [Option.some_bind]
    rw [hee]
    simp only [Option.some_bind]
    rw [hj]
    simp only [Option.some_bind]
    have hsv : ((embs.map fun e => cosine_similarity q e)[j]?).getD 0 = s := by
      rw [hs]; rfl
    rw [hsv, if_pos hc, hex]
    simp only [Option.some_bind]
    rw [hfmt]
    simp only [Option.some_bind]
    rfl
  unfold find_solution
  rw [hml, hee]
  rw [show (!true || (some embs).isNone) = false from rfl]
  rw [if_neg Bool.false_ne_true]
  rw [htry]

/-- The two directions combined. -/
lemma find_solution_eq_some_iff (ai : BugSolutionAI) (b : BugReport)
    (sol : BugSolution) :
    (find_solution ai b).2 = some sol ↔ SolutionSpec ai b sol :=
  ⟨find_solution_some_fwd ai b sol, find_solution_some_bwd ai b sol⟩

/-- A raised exception in the `try` body makes `find_solution` return
`None`. -/
lemma find_solution_none_of_try_none (ai : BugSolutionAI) (b : BugReport)
    (h : find_solution_try ai b = none) : (find_solution ai b).2 = none := by
  unfold find_solution
  split
  · rfl
  · rw [h]

/-! ## Evaluation lemmas on the concrete fixtures -/

/-- The cosine similarity of the unit vector `[1]` with itself is `1`. -/
lemma cos_e1_e1 : cosine_similarity [1] [(1 : ℝ)] = 1 := by
  unfold cosine_similarity dot l2norm
  norm_num [Real.sqrt_one]

/-- The cosine similarity of `[1, 0]` with itself is `1`. -/
lemma cos_e2_same : cosine_similarity [1, 0] [(1 : ℝ), 0] = 1 := by
  unfold cosine_similarity dot l2norm
  norm_num [Real.sqrt_one]

/-- The cosine similarity of the two standard basis vectors is `0`. -/
lemma cos_e2_perp : cosine_similarity [1, 0] [(0 : ℝ), 1] = 0 := by
  unfold cosine_similarity dot
  norm_num

/-- `np.argmax` on the concrete score array `[0, 1]` picks index `1`. -/
lemma npArgmax_01 : npArgmax [(0 : ℝ), 1] = some 1 := by
  have h1 : argmaxList [(1 : ℝ)] = some (0, 1) := rfl
  unfold npArgmax argmaxList
  rw [h1]
  dsimp only
  rw [if_pos (by norm_num : (1 : ℝ) > 0)]
  rfl

/-- The two-example engine satisfies the success specification on
`w2Report`, matching example `exB` with similarity `1`. -/
lemma w2_spec : SolutionSpec w2AI w2Report w2Sol := by
  unfold SolutionSpec
  refine ⟨rfl, encodeE2, [1, 0], [[0, 1], [1, 0]], 1, 1, exB,
    rfl, rfl, rfl, ?_, ?_, ?_, rfl, rfl⟩
  · have hmap : (([[0, 1], [1, 0]] : List (List ℝ)).map
        fun e => cosine_similarity [1, 0] e)
        = [cosine_similarity [1, 0] [0, 1], cosine_similarity [1, 0] [1, 0]] := rfl
    rw [hmap, cos_e2_perp, cos_e2_same]
    exact npArgmax_01
  · have hmap : ((([[0, 1], [1, 0]] : List (List ℝ)).map
        fun e => cosine_similarity [1, 0] e))[1]?
        = some (cosine_similarity [1, 0] [1, 0]) := rfl
    rw [hmap, cos_e2_same]
  · exact (calculate_confidence_gt_half_iff 1 w2Report).mpr (by norm_num)

/-- Concrete run: on `w2AI`, `find_solution` returns `exB`'s solution. -/
lemma w2_run : (find_solution w2AI w2Report).2 = some w2Sol :=
  find_solution_some_bwd w2AI w2Report w2Sol w2_spec

/-- Concrete failing run: on `badAI` the similarity is `1` and the
confidence clears the threshold, but formatting the matched, malformed
example raises, so the `try` body raises. -/
lemma badAI_try_none : find_solution_try badAI w2Report = none := by
  unfold find_solution_try
  rw [show badAI.model = some encodeUnit from rfl]
  simp only [Option.bind_eq_bind, Option.some_bind]
  rw [show encodeUnit w2Report.description = some [1] from rfl]
  simp only [Option.some_bind]
  rw [show badAI.example_embeddings = some [[1]] from rfl]
  simp only [Option.some_bind]
  have hmap : (([[1]] : List (List ℝ)).map fun e => cosine_similarity [1] e)
      = [cosine_similarity [1] [1]] := rfl
  rw [hmap]
  rw [show npArgmax [cosine_similarity [1] [1]] = some 0 from rfl]
  simp only [Option.some_bind]
  rw [show (([cosine_similarity [1] [1]] : List ℝ)[0]?).getD 0
      = cosine_similarity [1] [1] from rfl]
  rw [cos_e1_e1]
  rw [if_pos ((calculate_confidence_gt_half_iff 1 w2Report).mpr (by norm_num))]
  rw [show badAI.examples[0]? = some exBad from rfl]
  simp only [Option.some_bind]
  rw [show _format_solution exBad (_calculate_confidence 1 w2Report) 1
      = none from rfl]
  rfl

/-! ## The claims -/

/-- C1 (counterexample): the claim "find_solution returns a matched example's
solution exactly when the computed confidence exceeds 0.5" is false on the
code.  Concretely: on engine `badAI` (model loaded, embeddings cached, one
example whose `'code_example'` key is missing), the run on `w2Report` reaches
the best match at index `0` with similarity `1`, the computed confidence
exceeds `0.5`, and the matched example carries an attached solution — yet
`find_solution` returns `None`, because `_format_solution` raises `KeyError`
and the `except` clause swallows it. -/
theorem C1_counterexample :
    badAI.model_loaded = true ∧
    badAI.example_embeddings = some [[1]] ∧
    npArgmax (([[1]] : List (List ℝ)).map fun e => cosine_similarity [1] e)
      = some 0 ∧
    _calculate_confidence (cosine_similarity [1] [1]) w2Report > 0.5 ∧
    badAI.examples[0]? = some exBad ∧
    exBad.solution = some "Use arrow functions." ∧
    (find_solution badAI w2Report).2 = none := by
  refine ⟨rfl, rfl, rfl, ?_, rfl, rfl, ?_⟩
  · rw [cos_e1_e1]
    exact (calculate_confidence_gt_half_iff 1 w2Report).mpr (by norm_num)
  · exact find_solution_none_of_try_none badAI w2Report badAI_try_none

/-- C1 (amended): `find_solution` returns a solution exactly when the model
is loaded, the example embeddings are available, encoding the description
succeeds, the computed confidence of the arg-max similarity exceeds the
constant threshold `0.5`, and the matched example carries every required key
(`title`, `solution`, `code_example`, `source`); in every other case —
including whenever the model is not loaded, the example embeddings are
unavailable, encoding fails, or the matched example is malformed — it
returns `None`, signalling "no match". -/
theorem C1_solution_exactly_on_confident_wellformed_match
    (ai : BugSolutionAI) (b : BugReport) (sol : BugSolution) :
    (find_solution ai b).2 = some sol ↔ SolutionSpec ai b sol :=
  find_solution_eq_some_iff ai b sol

/-- C2: whenever the model and embeddings are available, the description
encodes to `q`, and `find_solution` returns a solution, that solution is
formatted from the example at an index `j` that is an arg-max of cosine
similarity over the whole cached embedding array: its score is greater than
or equal to every other score, and every earlier index scores strictly less
(ties resolve to the lowest index). -/
theorem C2_returns_argmax_of_cosine_similarity
    (ai : BugSolutionAI) (b : BugReport) (enc : String → Option (List ℝ))
    (q : List ℝ) (embs : List (List ℝ)) (sol : BugSolution)
    (hm : ai.model = some enc) (hq : enc b.description = some q)
    (he : ai.example_embeddings = some embs)
    (hr : (find_solution ai b).2 = some sol) :
    ∃ j s ex,
      npArgmax (embs.map fun e => cosine_similarity q e) = some j ∧
      (embs.map fun e => cosine_similarity q e)[j]? = some s ∧
      (∀ (i : Nat) (w : ℝ),
        (embs.map fun e => cosine_similarity q e)[i]? = some w → w ≤ s) ∧
      (∀ i, i < j → ∀ (w : ℝ),
        (embs.map fun e => cosine_similarity q e)[i]? = some w → w < s) ∧
      ai.examples[j]? = some ex ∧
      _format_solution ex (_calculate_confidence s b) s = some sol := by
  obtain ⟨hml, enc', q', embs', j, s, ex, hm', hq', he', hj, hs, hc, hex, hfmt⟩ :=
    find_solution_some_fwd ai b sol hr
  have henc : enc = enc' := by
    have := hm.symm.trans hm'
    exact Option.some.inj this
  subst henc
  have hqq : q = q' := by
    have := hq.symm.trans hq'
    exact Option.some.inj this
  subst hqq
  have hembs : embs = embs' := by
    have := he.symm.trans he'
    exact Option.some.inj this
  subst hembs
  obtain ⟨v, hv, hmax, hfirst⟩ := npArgmax_spec _ j hj
  have hsv : s = v := by
    have := hs.symm.trans hv
    exact Option.some.inj this
  subst hsv
  exact ⟨j, s, ex, hj, hs, hmax, hfirst, hex, hfmt⟩

/-- C2 (witness): the theorem applied to the concrete two-example engine
`w2AI`, whose arg-max is index `1` with similarity `1`. -/
theorem C2_witness :
    w2AI.model = some encodeE2 ∧
    encodeE2 w2Report.description = some [1, 0] ∧
    w2AI.example_embeddings = some [[0, 1], [1, 0]] ∧
    (find_solution w2AI w2Report).2 = some w2Sol ∧
    (∃ j s ex,
      npArgmax (([[0, 1], [1, 0]] : List (List ℝ)).map
        fun e => cosine_similarity [1, 0] e) = some j ∧
      (([[0, 1], [1, 0]] : List (List ℝ)).map
        fun e => cosine_similarity [1, 0] e)[j]? = some s ∧
      (∀ (i : Nat) (w : ℝ),
        (([[0, 1], [1, 0]] : List (List ℝ)).map
          fun e => cosine_similarity [1, 0] e)[i]? = some w → w ≤ s) ∧
      (∀ i, i < j → ∀ (w : ℝ),
        (([[0, 1], [1, 0]] : List (List ℝ)).map
          fun e => cosine_similarity [1, 0] e)[i]? = some w → w < s) ∧
      w2AI.examples[j]? = some ex ∧
      _format_solution ex (_calculate_confidence s w2Report) s = some w2Sol) :=
  ⟨rfl, rfl, rfl, w2_run,
    C2_returns_argmax_of_cosine_similarity w2AI w2Report encodeE2 [1, 0]
      [[0, 1], [1, 0]] w2Sol rfl rfl rfl w2_run⟩

/-- C3: squashing the similarity through the fixed logistic curve and
thresholding at `0.5` accepts exactly the same similarities as comparing the
raw similarity to `0.5` directly — the implementation's accept/reject
behaviour equals the spec's direct comparison. -/
theorem C3_sigmoid_threshold_equals_direct_comparison (s : ℝ) (b : BugReport) :
    impl_accepts s b ↔ spec_accepts s := by
  unfold impl_accepts spec_accepts
  exact calculate_confidence_gt_half_iff s b

/-- C4: `_calculate_confidence` returns
`min (max (1 / (1 + exp (-10 * (s - 0.5)))) 0.0) 1.0`, and the returned
confidence always lies in the closed interval `[0, 1]`. -/
theorem C4_confidence_formula_and_range (s : ℝ) (b : BugReport) :
    _calculate_confidence s b =
      min (max (1 / (1 + Real.exp (-10 * (s - 0.5)))) 0.0) 1.0 ∧
    0 ≤ _calculate_confidence s b ∧ _calculate_confidence s b ≤ 1 := by
  refine ⟨rfl, ?_, ?_⟩
  · rw [calculate_confidence_eq]
    exact (logistic_pos s).le
  · rw [calculate_confidence_eq]
    exact (logistic_lt_one s).le

/-- C5: every public operation of the engine — `find_solution`,
`update_embeddings`, `get_examples`, `get_model_status` — leaves the loaded
examples list exactly as it was. -/
theorem C5_examples_immutable (ai : BugSolutionAI) (b : BugReport) :
    (find_solution ai b).1.examples = ai.examples ∧
    (update_embeddings ai).examples = ai.examples ∧
    (get_examples ai).1.examples = ai.examples ∧
    (get_model_status ai).1.examples = ai.examples := by
  refine ⟨by rw [find_solution_fst], ?_, rfl, rfl⟩
  unfold update_embeddings
  split
  · unfold _prepare_embeddings
    split
    · rfl
    · cases prepare_embeddings_try ai <;> rfl
  · rfl

/-- C6: `find_solution` is stateless per query — it leaves every field of
the engine (`model`, `examples`, `example_embeddings`, `model_loaded`)
unchanged, on the success, no-match and error paths alike. -/
theorem C6_find_solution_stateless (ai : BugSolutionAI) (b : BugReport) :
    (find_solution ai b).1.model = ai.model ∧
    (find_solution ai b).1.examples = ai.examples ∧
    (find_solution ai b).1.example_embeddings = ai.example_embeddings ∧
    (find_solution ai b).1.model_loaded = ai.model_loaded := by
  rw [find_solution_fst]
  exact ⟨rfl, rfl, rfl, rfl⟩

/-- C7: a `BugReport` can be constructed from `title` and `description`
alone, every other field taking its default (`None`, the creation timestamp,
`resolved = False`), and construction fails when `title` or `description` is
absent. -/
theorem C7_bugreport_required_fields (now : Nat) (t d : String) :
    (BugReport.validate now { title := some t, description := some d } =
      some { id := none, title := t, description := d,
             steps_to_reproduce := none, expected_behavior := none,
             actual_behavior := none, code_snippet := none, language := none,
             created_at := some now, resolved := false }) ∧
    ∀ inp : BugReportInput, inp.title = none ∨ inp.description = none →
      BugReport.validate now inp = none := by
  refine ⟨rfl, ?_⟩
  intro inp h
  unfold BugReport.validate
  rcases h with h | h
  · rw [h]
  · rw [h]
    cases inp.title <;> rfl

/-- C7 (witness): construction from title and description alone succeeds
with all defaults; construction from an empty payload fails. -/
theorem C7_witness :
    (BugReport.validate 7 { title := some "App crashes on login",
                            description := some "The app crashes." } =
      some { id := none, title := "App crashes on login",
             description := "The app crashes.",
             steps_to_reproduce := none, expected_behavior := none,
             actual_behavior := none, code_snippet := none, language := none,
             created_at := some 7, resolved := false }) ∧
    BugReport.validate 7 {} = none :=
  ⟨(C7_bugreport_required_fields 7 "App crashes on login" "The app crashes.").1,
   (C7_bugreport_required_fields 7 "App crashes on login" "The app crashes.").2
     {} (Or.inl rfl)⟩

/-- C8: the data model provides the knowledge-base entry record shape
`BugSolution` (title, solution text, example code, source citation, tags),
and on a confident match `_format_solution` populates one field-for-field
from the matched example together with the computed confidence and the raw
similarity score. -/
theorem C8_format_solution_fields (ex : ExampleDict) (c s : ℝ)
    (t so co sr : String)
    (h1 : ex.title = some t) (h2 : ex.solution = some so)
    (h3 : ex.code_example = some co) (h4 : ex.source = some sr) :
    _format_solution ex c s =
      some { title := t, solution := so, code_example := co, source := sr,
             confidence := c, tags := ex.tags.getD [],
             similarity_score := s } := by
  unfold _format_solution
  rw [h1, h2, h3, h4]

/-- C8 (witness): formatting the fully-populated example `exA` at confidence
`1` and similarity `0`. -/
theorem C8_witness :
    exA.title = some "Fix React State Mutation" ∧
    exA.solution = some "Create new objects to trigger re-renders." ∧
    exA.code_example = some "setTodos(newTodos)" ∧
    exA.source = some "React Documentation" ∧
    _format_solution exA 1 0 =
      some { title := "Fix React State Mutation",
             solution := "Create new objects to trigger re-renders.",
             code_example := "setTodos(newTodos)",
             source := "React Documentation",
             confidence := 1, tags := exA.tags.getD [],
             similarity_score := 0 } :=
  ⟨rfl, rfl, rfl, rfl,
   C8_format_solution_fields exA 1 0 _ _ _ _ rfl rfl rfl rfl⟩

/-- C9: the match outcome depends only on the `description` field — two bug
reports with equal descriptions produce identical `find_solution` results on
the same engine state; `title`, `code_snippet`, `language` and every other
field never influence the result. -/
theorem C9_depends_only_on_description (ai : BugSolutionAI)
    (b1 b2 : BugReport) (hd : b1.description = b2.description) :
    find_solution ai b1 = find_solution ai b2 := by
  have htry : find_solution_try ai b1 = find_solution_try ai b2 := by
    unfold find_solution_try
    rw [hd]
    rfl
  unfold find_solution
  rw [htry]

/-- C9 (witness): `w2Report` and `w9Report` share a description but differ
in title, code snippet and language, and get the same result. -/
theorem C9_witness :
    w2Report.description = w9Report.description ∧
    find_solution w2AI w2Report = find_solution w2AI w9Report :=
  ⟨rfl, C9_depends_only_on_description w2AI w2Report w9Report rfl⟩

/-- C10: `find_solution` never propagates an exception — whenever the `try`
body raises (encoding failure, empty similarity array, a matched example
lacking a required key such as `'code_example'`, ...), the call returns
`None` rather than an error. -/
theorem C10_exceptions_become_none (ai : BugSolutionAI) (b : BugReport)
    (h : find_solution_try ai b = none) :
    (find_solution ai b).2 = none :=
  find_solution_none_of_try_none ai b h

/-- C10 (witness): on `badAI` the matched example lacks `'code_example'`,
the `try` body raises, and `find_solution` returns `None`. -/
theorem C10_witness :
    find_solution_try badAI w2Report = none ∧
    (find_solution badAI w2Report).2 = none :=
  ⟨badAI_try_none, C10_exceptions_become_none badAI w2Report badAI_try_none⟩

end CodeFix
